import Mathlib

/-!
Verification of the CSV data-grid core (viewport virtualization, sorting,
column resizing, scroll synchronization) against its design specification.

Modelling conventions: all pixel quantities (scroll offsets, viewport
heights, row heights, column widths) are integers.  The code rounds the
measured row height to a whole number (`Math.round`) and all other pixel
inputs come from DOM geometry modelled in whole pixels.  On such inputs
the JavaScript float operations used by the code are exact, and
`Math.ceil(a / b) = (a + b - 1) / b`, `Math.floor(a / b) = a / b`,
`Math.ceil(n * 0.5) = (n + 1) / 2` in integer arithmetic for `b > 0`,
`a, n ≥ 0`.  DOM scroll offsets and element heights are never negative,
so they are modelled as `Nat`; quantities that can genuinely go negative
(the `data.length - 1` bound of the window) are modelled as `Int`.
-/

namespace DataGridCore

/-! ## Viewport Window Calculator (`DataGridBody.calculateVisibleRows`) -/

/-- The materialized window: `startIndex` is the first rendered row,
`endIndex` the last (inclusive; `-1` when the dataset is empty),
`topOffsetPx` the pixel offset of the first rendered row
(the `top: startIndex * measuredRowHeight` positioning of the
rendered-rows container). -/
structure VisibleWindow where
  startIndex : Nat
  endIndex : Int
  topOffsetPx : Nat
deriving Repr, DecidableEq

/-- From `DataGridBody.calculateVisibleRows`:
`visibleRowCount = Math.ceil(clientHeight / measuredRowHeight)`;
`overscanRowCount = Math.ceil(visibleRowCount * 0.5)`;
`start = Math.max(0, Math.floor(scrollTop / measuredRowHeight) - overscanRowCount)`
(truncated `Nat` subtraction models the `Math.max(0, ·)` clamp);
`end = Math.min(data.length - 1, Math.floor(scrollTop / measuredRowHeight) + visibleRowCount + overscanRowCount)`. -/
def calculateVisibleRows (scrollTop clientHeight measuredRowHeight dataLength : Nat) :
    VisibleWindow :=
  let visibleRowCount := (clientHeight + measuredRowHeight - 1) / measuredRowHeight
  let overscanRowCount := (visibleRowCount + 1) / 2
  let start := scrollTop / measuredRowHeight - overscanRowCount
  let stop : Int :=
    min ((dataLength : Int) - 1)
      ((scrollTop / measuredRowHeight + visibleRowCount + overscanRowCount : Nat) : Int)
  { startIndex := start, endIndex := stop, topOffsetPx := start * measuredRowHeight }

/-- Modelled from the spec's stated algorithm (for the refinement claim):
`visibleCount = ceil(viewportHeight / rowHeight)`;
`overscan = ceil(visibleCount * 0.5)`; `rawStart = floor(scrollTop / rowHeight)`;
`startIndex = max(0, rawStart - overscan)`;
`endIndex = min(datasetLength - 1, rawStart + visibleCount + overscan)`;
`topOffsetPx = startIndex * rowHeight`. -/
def computeWindow (scrollTop viewportHeight rowHeight datasetLength : Nat) : VisibleWindow :=
  let visibleCount := (viewportHeight + rowHeight - 1) / rowHeight
  let overscan := (visibleCount + 1) / 2
  let rawStart := scrollTop / rowHeight
  let startIndex := rawStart - overscan
  let endIndex : Int :=
    min ((datasetLength : Int) - 1) ((rawStart + visibleCount + overscan : Nat) : Int)
  { startIndex := startIndex, endIndex := endIndex, topOffsetPx := startIndex * rowHeight }

/-- C1: the code's viewport window computation returns exactly the spec's
formula, and on the spec's worked example (10000 rows, row height 35,
viewport height 300, scrollTop 3500) it returns `startIndex = 95`,
`endIndex = 114` (with top offset `95 * 35 = 3325`). -/
theorem calculateVisibleRows_eq_spec :
    (∀ scrollTop viewportHeight rowHeight datasetLength : Nat,
      calculateVisibleRows scrollTop viewportHeight rowHeight datasetLength =
        computeWindow scrollTop viewportHeight rowHeight datasetLength) ∧
    calculateVisibleRows 3500 300 35 10000 =
      { startIndex := 95, endIndex := 114, topOffsetPx := 3325 } := by
  refine ⟨fun _ _ _ _ => rfl, ?_⟩
  decide

/-- C2 counterexample: with 5 rows, row height 35, viewport height 300 and a
stale scroll offset of 8000 (beyond the dataset's pixel extent), the
computed window has `startIndex = 223` and `endIndex = 4`, so
`startIndex ≤ endIndex` fails and `startIndex` is not within `[0, 5)`. -/
theorem calculateVisibleRows_bounds_counterexample :
    ¬ (((calculateVisibleRows 8000 300 35 5).startIndex : Int) ≤
         (calculateVisibleRows 8000 300 35 5).endIndex ∧
       (calculateVisibleRows 8000 300 35 5).startIndex < 5) := by
  decide

/-- C2 (amended): for positive row height, whenever the scroll offset lies
within the dataset's pixel extent (`scrollTop < datasetLength * rowHeight`,
which forces a nonempty dataset), the window satisfies
`startIndex ≤ endIndex` with both indices inside `[0, datasetLength)`; and
when the dataset is empty the window is empty (`endIndex < startIndex`). -/
theorem calculateVisibleRows_bounds (scrollTop clientHeight h dataLength : Nat)
    (hh : 0 < h) :
    (scrollTop < dataLength * h →
      ((calculateVisibleRows scrollTop clientHeight h dataLength).startIndex : Int) ≤
          (calculateVisibleRows scrollTop clientHeight h dataLength).endIndex ∧
        (calculateVisibleRows scrollTop clientHeight h dataLength).startIndex < dataLength ∧
        0 ≤ (calculateVisibleRows scrollTop clientHeight h dataLength).endIndex ∧
        (calculateVisibleRows scrollTop clientHeight h dataLength).endIndex <
          (dataLength : Int)) ∧
    (dataLength = 0 →
      (calculateVisibleRows scrollTop clientHeight h dataLength).endIndex <
        ((calculateVisibleRows scrollTop clientHeight h dataLength).startIndex : Int)) := by
  constructor
  · intro hs
    have hdiv : scrollTop / h < dataLength := by
      rw [Nat.div_lt_iff_lt_mul hh]; omega
    simp only [calculateVisibleRows]
    generalize (clientHeight + h - 1) / h = vc
    generalize (vc + 1) / 2 = oc
    generalize scrollTop / h = rs at hdiv ⊢
    refine ⟨le_min (by omega) (by omega), by omega, le_min (by omega) (by omega),
      lt_of_le_of_lt (min_le_left _ _) (by omega)⟩
  · intro h0
    subst h0
    simp only [calculateVisibleRows]
    exact lt_of_le_of_lt (min_le_left _ _)
      (lt_of_lt_of_le (by norm_num) (Int.natCast_nonneg _))

/-- C2 witness: the amended bounds at a concrete in-extent input
(row 100 of 10000, row height 35, viewport height 300). -/
theorem calculateVisibleRows_bounds_witness :
    (0 : Nat) < 35 ∧
    ((3500 : Nat) < 10000 * 35 →
      ((calculateVisibleRows 3500 300 35 10000).startIndex : Int) ≤
          (calculateVisibleRows 3500 300 35 10000).endIndex ∧
        (calculateVisibleRows 3500 300 35 10000).startIndex < 10000 ∧
        0 ≤ (calculateVisibleRows 3500 300 35 10000).endIndex ∧
        (calculateVisibleRows 3500 300 35 10000).endIndex < (10000 : Int)) ∧
    ((10000 : Nat) = 0 →
      (calculateVisibleRows 3500 300 35 10000).endIndex <
        ((calculateVisibleRows 3500 300 35 10000).startIndex : Int)) :=
  ⟨by decide, calculateVisibleRows_bounds 3500 300 35 10000 (by decide)⟩

/-- C3: for positive row height, every dataset row whose pixel span
`[i * h, (i + 1) * h)` intersects the visible interval
`[scrollTop, scrollTop + clientHeight)` lies inside the materialized window
`[startIndex, endIndex]`. -/
theorem calculateVisibleRows_covers_viewport
    (scrollTop clientHeight h dataLength i : Nat) (hh : 0 < h)
    (hi : i < dataLength)
    (hlo : i * h < scrollTop + clientHeight)
    (hhi : scrollTop < (i + 1) * h) :
    (calculateVisibleRows scrollTop clientHeight h dataLength).startIndex ≤ i ∧
      (i : Int) ≤ (calculateVisibleRows scrollTop clientHeight h dataLength).endIndex := by
  have hrawle : scrollTop / h ≤ i := by
    have := (Nat.div_lt_iff_lt_mul hh).2 hhi
    omega
  have hvc : clientHeight ≤ ((clientHeight + h - 1) / h) * h := by
    have h1 := Nat.div_add_mod (clientHeight + h - 1) h
    have h2 : (clientHeight + h - 1) % h < h := Nat.mod_lt _ hh
    have e : ((clientHeight + h - 1) / h) * h = h * ((clientHeight + h - 1) / h) := by ring
    omega
  have hsrange : scrollTop < (scrollTop / h + 1) * h := by
    have h1 := Nat.div_add_mod scrollTop h
    have h2 : scrollTop % h < h := Nat.mod_lt _ hh
    have e : (scrollTop / h + 1) * h = h * (scrollTop / h) + h := by ring
    omega
  have hupper : i ≤ scrollTop / h + (clientHeight + h - 1) / h := by
    by_contra hcon
    push_neg at hcon
    have h1 : (scrollTop / h + (clientHeight + h - 1) / h + 1) * h ≤ i * h :=
      Nat.mul_le_mul_right h hcon
    have e : (scrollTop / h + (clientHeight + h - 1) / h + 1) * h =
        (scrollTop / h + 1) * h + ((clientHeight + h - 1) / h) * h := by ring
    omega
  simp only [calculateVisibleRows]
  omega

/-- C3 witness: row 100 (pixel span `[3500, 3535)`) intersects the viewport
`[3500, 3800)` and indeed lies inside the window `[95, 114]`. -/
theorem calculateVisibleRows_covers_viewport_witness :
    (0 : Nat) < 35 ∧ (100 : Nat) < 10000 ∧ 100 * 35 < 3500 + 300 ∧ 3500 < (100 + 1) * 35 ∧
    ((calculateVisibleRows 3500 300 35 10000).startIndex ≤ 100 ∧
      (100 : Int) ≤ (calculateVisibleRows 3500 300 35 10000).endIndex) :=
  ⟨by decide, by decide, by decide, by decide,
    calculateVisibleRows_covers_viewport 3500 300 35 10000 100 (by decide) (by decide)
      (by decide) (by decide)⟩

/-! ## Sort Engine (`DataGrid.handleSort`, `DataGrid.sortedData`) -/

/-- Sort direction, the `"asc"` / `"desc"` strings of `sortConfig.direction`. -/
inductive SortDirection where
  | asc
  | desc
deriving Repr, DecidableEq

/-- The `sortConfig` state `{ key, direction }`; `key = none` models the
JavaScript `null` key (unsorted). -/
structure SortConfig where
  key : Option String
  direction : SortDirection
deriving Repr, DecidableEq

/-- From `DataGrid.handleSort`: the three-state toggle applied to the
previous `sortConfig` when column `key` is activated.  The JavaScript
`direction` is always `"asc"` or `"desc"`, so the inner two-branch
conditional is a total match here. -/
def handleSort (key : String) (prevConfig : SortConfig) : SortConfig :=
  if prevConfig.key = some key then
    match prevConfig.direction with
    | .asc => { key := some key, direction := .desc }
    | .desc => { key := none, direction := .asc }
  else { key := some key, direction := .asc }

/-- Cell values as produced by the CSV parser with `dynamicTyping`:
numbers, strings, booleans or null/missing.  Numeric cells are modelled
as integers (see the modelling conventions above). -/
inductive CellValue where
  | num (n : Int)
  | str (s : String)
  | boolV (b : Bool)
  | nullV
deriving Repr, DecidableEq

/-- A record row: the association of field identifiers to cell values
(`row[header.id]` field access). -/
def Record := List (String × CellValue)
deriving Repr, DecidableEq

/-- Field access `row[key]`; a missing field reads as null. -/
def getField (row : Record) (key : String) : CellValue :=
  match (List.lookup key row : Option CellValue) with
  | some v => v
  | none => .nullV

/-- Ascending comparison of two cell values, modelling lodash's type-aware
ordering on the value kinds the parser produces: numbers by numeric value,
strings lexicographically, booleans with `false < true`, and distinct
kinds ranked `num < str < boolV < nullV` (lodash orders null-ish values
after values). -/
def compareValues : CellValue → CellValue → Ordering
  | .num a, .num b => compare a b
  | .str a, .str b => compare a b
  | .boolV a, .boolV b => compare a b
  | .nullV, .nullV => .eq
  | .num _, _ => .lt
  | _, .num _ => .gt
  | .str _, _ => .lt
  | _, .str _ => .gt
  | .boolV _, _ => .lt
  | _, .boolV _ => .gt

/-- The `≤` test used to order two rows by field `key` in direction `dir`:
lodash compares ascending and multiplies by `-1` for `"desc"`, so equal
keys test `true` in both directions (this is what makes the sort stable). -/
def rowLe (key : String) (dir : SortDirection) (a b : Record) : Bool :=
  match compareValues (getField a key) (getField b key), dir with
  | .eq, _ => true
  | .lt, .asc => true
  | .lt, .desc => false
  | .gt, .asc => false
  | .gt, .desc => true

/-- Stable insertion of a row in front of the first list element it is
`≤`-below-or-equal, keeping earlier rows of the original order first
among equal keys. -/
def insertRow (le : Record → Record → Bool) (x : Record) : List Record → List Record
  | [] => [x]
  | y :: ys => if le x y then x :: y :: ys else y :: insertRow le x ys

/-- Modelled from lodash `_.orderBy(data, [key], [direction])`: a stable
sort of the rows by the given field and direction, returning a new
sequence and leaving the input untouched. -/
def orderBy (data : List Record) (key : String) (dir : SortDirection) : List Record :=
  data.foldr (insertRow (rowLe key dir)) []

/-- From `DataGrid.sortedData`: `if (!sortConfig.key) return data;` then
`_.orderBy(data, [sortConfig.key], [sortConfig.direction])`. -/
def sortedData (data : List Record) (sortConfig : SortConfig) : List Record :=
  match sortConfig.key with
  | none => data
  | some k => orderBy data k sortConfig.direction

/-- C4: the sort-state transition is the three-state toggle: activating the
active ascending column yields descending on that column; activating the
active descending column clears the sort; activating anything else (no
active column, or a different one) yields ascending on the activated
column. -/
theorem handleSort_three_state_toggle (key : String) :
    (handleSort key { key := some key, direction := .asc } =
      { key := some key, direction := .desc }) ∧
    (handleSort key { key := some key, direction := .desc } =
      { key := none, direction := .asc }) ∧
    (∀ prevConfig : SortConfig, prevConfig.key ≠ some key →
      handleSort key prevConfig = { key := some key, direction := .asc }) := by
  refine ⟨by simp [handleSort], by simp [handleSort], fun prevConfig hne => ?_⟩
  simp [handleSort, hne]

/-- C4 witness: the toggle at the column id used in the spec's example,
starting from a sort on a different column. -/
theorem handleSort_three_state_toggle_witness :
    (handleSort "age" { key := some "age", direction := .asc } =
      { key := some "age", direction := .desc }) ∧
    (handleSort "age" { key := some "age", direction := .desc } =
      { key := none, direction := .asc }) ∧
    ((some "name" : Option String) ≠ some "age" ∧
      handleSort "age" { key := some "name", direction := .desc } =
        { key := some "age", direction := .asc }) := by
  obtain ⟨h1, h2, h3⟩ := handleSort_three_state_toggle "age"
  exact ⟨h1, h2, by decide, h3 { key := some "name", direction := .desc } (by decide)⟩

/-- C5: deriving the view is a pure function of the dataset (the source
sequence is left untouched by construction), with a cleared sort key the
derived view is exactly the original dataset in insertion order, and in
particular the third toggle state reached by activating the same column
three times from the unsorted state restores the identical sequence. -/
theorem sortedData_unsorted_round_trip :
    (∀ (data : List Record) (dir : SortDirection),
      sortedData data { key := none, direction := dir } = data) ∧
    (∀ (data : List Record) (key : String),
      sortedData data
        (handleSort key (handleSort key (handleSort key { key := none, direction := .asc }))) =
        data) := by
  refine ⟨fun data dir => rfl, fun data key => ?_⟩
  simp [handleSort, sortedData]

/-! ## Column Layout Manager (`DataGrid.handleColumnResize`,
`DataGridHeader.handleResizeStart` / `handleResizeMove` / `handleResizeEnd`) -/

/-- A column definition as built by the CSV uploader:
`{ id, name, width, minWidth, maxWidth, resizable, sortable }`. -/
structure Header where
  id : String
  name : String
  width : Int
  minWidth : Int
  maxWidth : Int
  resizable : Bool
  sortable : Bool
deriving Repr, DecidableEq

/-- From `DataGrid.handleColumnResize`: replace the width of the column
whose `id` matches, leaving every other column untouched. -/
def handleColumnResize (headers : List Header) (columnId : String) (newWidth : Int) :
    List Header :=
  headers.map fun header =>
    if header.id = columnId then { header with width := newWidth } else header

/-- From `DataGridHeader` (`src/unnamed/part_000`): a complete resize
gesture on column `columnId` with pointer delta `diff = clientX - startX`.
`handleResizeStart` records `startWidth = header.width` and bails out when
the column is not resizable (so the move/end handlers never fire);
`handleResizeEnd` computes
`Math.max(header.minWidth, Math.min(header.maxWidth, startWidth + diff))`
and commits it through `onResize` (the orchestrator's
`handleColumnResize`). -/
def handleResizeGesture (headers : List Header) (columnId : String) (diff : Int) :
    List Header :=
  match headers.find? (fun header => header.id = columnId) with
  | none => headers
  | some header =>
    if header.resizable then
      handleColumnResize headers columnId
        (max header.minWidth (min header.maxWidth (header.width + diff)))
    else headers

/-- From the inline resize handler in `DataGrid.handleMouseMove`:
`_.clamp(startWidth + diff, 50, 500)`, the fixed bounds the CSV uploader
assigns to every column (`minWidth: 50`, `maxWidth: 500`). -/
def handleMouseMoveClamp (startWidth diff : Int) : Int :=
  min (max (startWidth + diff) 50) 500

/-- C6: a resize gesture on column `c` (the first header matching the id)
with `minWidth ≤ maxWidth` stores exactly the clamp of the proposed width
`c.width + diff` into `[c.minWidth, c.maxWidth]` via the width-replacing
update: proposals below the minimum store exactly `minWidth`, proposals
above the maximum store exactly `maxWidth`, proposals in between are
stored unchanged; and on a non-resizable column the gesture is a no-op. -/
theorem handleResizeGesture_clamps (headers : List Header) (columnId : String)
    (diff : Int) (c : Header)
    (hfind : headers.find? (fun header => header.id = columnId) = some c)
    (hminmax : c.minWidth ≤ c.maxWidth) :
    (c.resizable = false → handleResizeGesture headers columnId diff = headers) ∧
    (c.resizable = true →
      handleResizeGesture headers columnId diff =
        handleColumnResize headers columnId
          (max c.minWidth (min c.maxWidth (c.width + diff))) ∧
      (c.width + diff < c.minWidth →
        max c.minWidth (min c.maxWidth (c.width + diff)) = c.minWidth) ∧
      (c.maxWidth < c.width + diff →
        max c.minWidth (min c.maxWidth (c.width + diff)) = c.maxWidth) ∧
      (c.minWidth ≤ c.width + diff → c.width + diff ≤ c.maxWidth →
        max c.minWidth (min c.maxWidth (c.width + diff)) = c.width + diff)) := by
  constructor
  · intro hres
    simp [handleResizeGesture, hfind, hres]
  · intro hres
    refine ⟨by simp [handleResizeGesture, hfind, hres], ?_, ?_, ?_⟩
    · intro hlt
      omega
    · intro hgt
      omega
    · intro hge hle
      omega

/-- C6 witness: the spec's example column (`minWidth = 50`, `maxWidth = 500`,
`width = 150`) resized by a pointer delta of `-200` clamps to exactly 50,
and the same gesture on the column marked non-resizable is a no-op. -/
theorem handleResizeGesture_clamps_witness :
    (([{ id := "a", name := "a", width := 150, minWidth := 50, maxWidth := 500,
          resizable := true, sortable := true }] :
        List Header).find? (fun header => header.id = "a") =
      some { id := "a", name := "a", width := 150, minWidth := 50, maxWidth := 500,
              resizable := true, sortable := true }) ∧
    ((50 : Int) ≤ 500) ∧
    (({ id := "a", name := "a", width := 150, minWidth := 50, maxWidth := 500,
          resizable := true, sortable := true } : Header).resizable = true →
      handleResizeGesture
          [{ id := "a", name := "a", width := 150, minWidth := 50, maxWidth := 500,
              resizable := true, sortable := true }] "a" (-200) =
        handleColumnResize
          [{ id := "a", name := "a", width := 150, minWidth := 50, maxWidth := 500,
              resizable := true, sortable := true }] "a"
          (max 50 (min 500 ((150 : Int) + -200))) ∧
      ((150 : Int) + -200 < 50 → max (50 : Int) (min 500 ((150 : Int) + -200)) = 50) ∧
      ((500 : Int) < 150 + -200 → max (50 : Int) (min 500 ((150 : Int) + -200)) = 500) ∧
      ((50 : Int) ≤ 150 + -200 → (150 : Int) + -200 ≤ 500 →
        max (50 : Int) (min 500 ((150 : Int) + -200)) = (150 : Int) + -200)) := by
  refine ⟨by decide, by decide, ?_⟩
  exact (handleResizeGesture_clamps
    [{ id := "a", name := "a", width := 150, minWidth := 50, maxWidth := 500,
        resizable := true, sortable := true }] "a" (-200)
    { id := "a", name := "a", width := 150, minWidth := 50, maxWidth := 500,
        resizable := true, sortable := true } (by decide) (by decide)).2

/-! ## Scroll Synchronizer (`DataGrid.handleScroll`) -/

/-- The orchestrator's `scrollPosition` state `{ top, left }`. -/
structure ScrollPos where
  top : Int
  left : Int
deriving Repr, DecidableEq

/-- The scroll-relevant grid state: the body region's DOM offsets
(`bodyRef.scrollTop` / `bodyRef.scrollLeft`), the header region's
horizontal DOM offset (`headerRef.scrollLeft`; the header cannot scroll
vertically), and the React `scrollPosition` state. -/
structure GridScrollState where
  bodyTop : Int
  bodyLeft : Int
  headerLeft : Int
  scrollPosition : ScrollPos
deriving Repr, DecidableEq

/-- Which region (`e.target`) a scroll notification comes from. -/
inductive ScrollRegion where
  | body
  | header
deriving Repr, DecidableEq

/-- The opposite region, the propagation target. -/
def ScrollRegion.opposite : ScrollRegion → ScrollRegion
  | .body => .header
  | .header => .body

/-- The horizontal offset a notification from the given region carries
(the handler reads `e.target.scrollLeft`). -/
def sourceLeft (region : ScrollRegion) (st : GridScrollState) : Int :=
  match region with
  | .body => st.bodyLeft
  | .header => st.headerLeft

/-- The other region's current horizontal offset, the propagation target. -/
def targetLeft (region : ScrollRegion) (st : GridScrollState) : Int :=
  match region with
  | .body => st.headerLeft
  | .header => st.bodyLeft

/-- From `DataGrid.handleScroll`: a scroll notification from one region
reads that region's offsets, updates `scrollPosition` (skipping the update
when nothing changed), and writes the horizontal offset to the other
region only when the target's offset differs.  The returned flag records
whether the other region's DOM offset was written (the write is what
would enqueue a further scroll notification on that region). -/
def handleScroll (region : ScrollRegion) (st : GridScrollState) :
    GridScrollState × Bool :=
  match region with
  | .body =>
    let scrollTop := st.bodyTop
    let scrollLeft := st.bodyLeft
    let pos :=
      if st.scrollPosition.top = scrollTop ∧ st.scrollPosition.left = scrollLeft then
        st.scrollPosition
      else { top := scrollTop, left := scrollLeft }
    if st.headerLeft ≠ scrollLeft then
      ({ st with scrollPosition := pos, headerLeft := scrollLeft }, true)
    else
      ({ st with scrollPosition := pos }, false)
  | .header =>
    let scrollLeft := st.headerLeft
    let pos :=
      if st.scrollPosition.left = scrollLeft then st.scrollPosition
      else { st.scrollPosition with left := scrollLeft }
    if st.bodyLeft ≠ scrollLeft then
      ({ st with scrollPosition := pos, bodyLeft := scrollLeft }, true)
    else
      ({ st with scrollPosition := pos }, false)

/-- C7: after a horizontal scroll notification carrying offset `L` from
either region, both regions hold exactly `L`; the propagation is
single-shot — the other region is written iff its offset differed from
`L` — and the echo notification the write would trigger on the other
region performs no further write, so the two regions never oscillate. -/
theorem handleScroll_syncs_without_oscillation (region : ScrollRegion)
    (st : GridScrollState) :
    ((handleScroll region st).1.bodyLeft = sourceLeft region st ∧
      (handleScroll region st).1.headerLeft = sourceLeft region st) ∧
    ((handleScroll region st).2 = true ↔ targetLeft region st ≠ sourceLeft region st) ∧
    (handleScroll region.opposite (handleScroll region st).1).2 = false := by
  cases region <;>
    · simp only [handleScroll, sourceLeft, targetLeft, ScrollRegion.opposite]
      split_ifs <;> simp_all

/-! ## Grid Orchestrator: dataset replacement
(`DataGrid`, the effect subscribed to `data.length`) -/

/-- From the `DataGrid` data-change effect (lines 125–132): React re-runs
the effect exactly when its dependency `data.length` changes between
renders; the effect sets `bodyRef.scrollTop = 0` and replaces
`scrollPosition` by `{ top: 0, left: scrollPosition.left }`.  A
replacement that keeps the length leaves the scroll state untouched. -/
def dataChangeEffect (oldData newData : List Record) (pos : ScrollPos) : ScrollPos :=
  if newData.length = oldData.length then pos
  else { top := 0, left := pos.left }

/-- C8 counterexample: replacing the one-row dataset by a different
one-row dataset while `scrollTop = 8000` does not reset the vertical
offset — the effect only re-runs when the dataset length changes, so the
stale offset survives this replacement. -/
theorem dataChangeEffect_same_length_counterexample :
    (dataChangeEffect [[("a", .num 1)]] [[("a", .num 2)]]
        { top := 8000, left := 0 }).top = 8000 := by
  decide

/-- C8 (amended): every dataset replacement that changes the dataset
length resets the stored vertical offset to 0 (keeping the horizontal
offset), so a stale `scrollTop` captured against the previous dataset is
never used against a differently-sized one; in particular, after
replacing 10,000 rows by 5 while `scrollTop = 8000`, the offset is 0 and
the window recomputed from it (row height 35, viewport height 300) is
`{startIndex := 0, endIndex := 4}`. -/
theorem dataChangeEffect_resets_scrollTop (oldData newData : List Record)
    (pos : ScrollPos) (hlen : newData.length ≠ oldData.length) :
    dataChangeEffect oldData newData pos = { top := 0, left := pos.left } ∧
    calculateVisibleRows 0 300 35 5 = { startIndex := 0, endIndex := 4, topOffsetPx := 0 } := by
  constructor
  · simp [dataChangeEffect, hlen]
  · decide

/-- C8 witness: a concrete replacement of a two-row dataset by a one-row
dataset while `scrollTop = 8000`. -/
theorem dataChangeEffect_resets_scrollTop_witness :
    dataChangeEffect [[("a", .num 1)], [("a", .num 2)]] [[("a", .num 3)]]
        { top := 8000, left := 7 } = { top := 0, left := 7 } ∧
    calculateVisibleRows 0 300 35 5 = { startIndex := 0, endIndex := 4, topOffsetPx := 0 } :=
  dataChangeEffect_resets_scrollTop [[("a", .num 1)], [("a", .num 2)]] [[("a", .num 3)]]
    { top := 8000, left := 7 } (by decide)

/-- C10: the data-change handler never touches the horizontal component:
for every dataset replacement the stored `scrollPosition.left` after the
effect equals its value before it. -/
theorem dataChangeEffect_preserves_left (oldData newData : List Record)
    (pos : ScrollPos) :
    (dataChangeEffect oldData newData pos).left = pos.left := by
  simp only [dataChangeEffect]
  split <;> rfl

/-! ## Row Metrics Estimator (`DataGridBody.measureRowHeight`) -/

/-- The initial row-height estimate, `useState(35)`. -/
def initialRowHeight : Int := 35

/-- From `DataGridBody.measureRowHeight`: given the current estimate and a
measured sample (`Math.round` of the first rendered row's bounding
height), the stored estimate becomes the sample exactly when the sample
is strictly positive and differs from the current estimate by more than
one pixel; otherwise it is left unchanged. -/
def measureRowHeight (measuredRowHeight computedHeight : Int) : Int :=
  if 0 < computedHeight ∧ 1 < |computedHeight - measuredRowHeight| then computedHeight
  else measuredRowHeight

/-- Positivity is preserved by any sequence of measurements. -/
lemma measureRowHeight_foldl_pos (samples : List Int) (h : Int) (hpos : 0 < h) :
    0 < List.foldl measureRowHeight h samples := by
  induction samples generalizing h with
  | nil => exact hpos
  | cons s rest ih =>
    refine ih (measureRowHeight h s) ?_
    simp only [measureRowHeight]
    split <;> omega

/-- C9: the estimator stores the sample exactly when it is strictly
positive and differs from the current estimate by more than one pixel,
leaves the estimate unchanged otherwise, and starting from the fixed
positive default the stored estimate stays strictly positive after every
sequence of measurements. -/
theorem measureRowHeight_update_rule :
    (∀ measuredRowHeight computedHeight : Int,
      (0 < computedHeight → 1 < |computedHeight - measuredRowHeight| →
        measureRowHeight measuredRowHeight computedHeight = computedHeight) ∧
      (¬ (0 < computedHeight ∧ 1 < |computedHeight - measuredRowHeight|) →
        measureRowHeight measuredRowHeight computedHeight = measuredRowHeight)) ∧
    (∀ samples : List Int, 0 < List.foldl measureRowHeight initialRowHeight samples) := by
  constructor
  · intro h s
    constructor
    · intro hpos hfar
      simp [measureRowHeight, hpos, hfar]
    · intro hnot
      simp only [measureRowHeight, if_neg hnot]
  · intro samples
    exact measureRowHeight_foldl_pos samples initialRowHeight (by decide)

/-- C9 witness: a sample of 40 replaces the default estimate of 35, a
sample differing by one pixel does not, and the estimate stays positive
across the sample sequence `[40, 0, 41, -3]`. -/
theorem measureRowHeight_update_rule_witness :
    ((0 : Int) < 40 → 1 < |(40 : Int) - 35| → measureRowHeight 35 40 = 40) ∧
    (¬ ((0 : Int) < 36 ∧ 1 < |(36 : Int) - 35|) → measureRowHeight 35 36 = 35) ∧
    0 < List.foldl measureRowHeight initialRowHeight [40, 0, 41, -3] :=
  ⟨(measureRowHeight_update_rule.1 35 40).1,
    (measureRowHeight_update_rule.1 35 36).2,
    measureRowHeight_update_rule.2 [40, 0, 41, -3]⟩

end DataGridCore
